import Mathlib

/-!
Verification of the foodtracker app-attestation authentication subsystem.

The definitions below are a shallow embedding of the Cloudflare Worker in
`api-proxy/src/index.ts` (request gateway, token validator, app registry,
registration handler) and of the client retry logic in
`src/services/apiProxy.ts`.  JavaScript values flowing through the protocol
are modelled by a small JSON value type; `JSON.parse`, `atob` and the
`base64UrlDecode` helper are implemented faithfully (with the modelling
choices documented on each definition).  The RSA-PKCS#1-v1.5/SHA-256
signature scheme is idealized as a deterministic unforgeable signing oracle.
-/

set_option autoImplicit false
set_option maxRecDepth 40000

namespace FoodTracker

/-- JSON values as produced by `JSON.parse`.  Numbers are modelled as
integers: every numeric field of this protocol is a millisecond timestamp,
and fractional/exponent numerals are treated as parse failures by the
embedded parser (documented on `jsonParse`). -/
inductive Json where
  | null
  | bool (b : Bool)
  | num (n : Int)
  | str (s : String)
  | arr (xs : List Json)
  | obj (fields : List (String × Json))
deriving Repr

mutual

def Json.beq : Json → Json → Bool
  | .null, .null => true
  | .bool a, .bool b => a == b
  | .num a, .num b => a == b
  | .str a, .str b => a == b
  | .arr a, .arr b => Json.beqList a b
  | .obj a, .obj b => Json.beqFields a b
  | _, _ => false

def Json.beqList : List Json → List Json → Bool
  | [], [] => true
  | a :: as_, b :: bs => Json.beq a b && Json.beqList as_ bs
  | _, _ => false

def Json.beqFields : List (String × Json) → List (String × Json) → Bool
  | [], [] => true
  | (k, v) :: as_, (k', v') :: bs => k == k' && Json.beq v v' && Json.beqFields as_ bs
  | _, _ => false

end

mutual

theorem Json.beq_iff : ∀ a b : Json, Json.beq a b = true ↔ a = b
  | .null, b => by cases b <;> simp [Json.beq]
  | .bool x, b => by cases b <;> simp [Json.beq]
  | .num x, b => by cases b <;> simp [Json.beq]
  | .str x, b => by cases b <;> simp [Json.beq]
  | .arr xs, b => by
      cases b <;> simp [Json.beq]
      exact Json.beqList_iff xs _
  | .obj fs, b => by
      cases b <;> simp [Json.beq]
      exact Json.beqFields_iff fs _

theorem Json.beqList_iff : ∀ a b : List Json, Json.beqList a b = true ↔ a = b
  | [], b => by cases b <;> simp [Json.beqList]
  | x :: xs, b => by
      cases b with
      | nil => simp [Json.beqList]
      | cons y ys =>
          simp only [Json.beqList, Bool.and_eq_true, List.cons.injEq,
            Json.beq_iff x y, Json.beqList_iff xs ys]

theorem Json.beqFields_iff :
    ∀ a b : List (String × Json), Json.beqFields a b = true ↔ a = b
  | [], b => by cases b <;> simp [Json.beqFields]
  | (k, v) :: xs, b => by
      cases b with
      | nil => simp [Json.beqFields]
      | cons y ys =>
          obtain ⟨k', v'⟩ := y
          simp only [Json.beqFields, Bool.and_eq_true, List.cons.injEq, Prod.mk.injEq,
            beq_iff_eq, Json.beq_iff v v', Json.beqFields_iff xs ys]

end

instance : DecidableEq Json := fun a b =>
  decidable_of_iff (Json.beq a b = true) (Json.beq_iff a b)

/-- Last-binding lookup in a JSON object's field list: a later duplicate key
shadows an earlier one, matching JavaScript object semantics where
`JSON.parse` assigns duplicated keys in order. -/
def lookupLast (fields : List (String × Json)) (k : String) : Option Json :=
  fields.foldl (fun acc p => if p.1 = k then some p.2 else acc) none

/-- JavaScript property access `j.k`, where `none` models a thrown
`TypeError` (property access on `null`) and `some none` models `undefined`
(absent key, or property access on a primitive). -/
def getProp (j : Json) (k : String) : Except Unit (Option Json) :=
  match j with
  | .null => .error ()
  | .obj fields => .ok (lookupLast fields k)
  | _ => .ok none

/-- JavaScript truthiness of a possibly-`undefined` value: `undefined`,
`null`, `false`, `0` and `""` are falsy, everything else here is truthy. -/
def jsTruthy : Option Json → Bool
  | none => false
  | some .null => false
  | some (.bool b) => b
  | some (.num n) => decide (n ≠ 0)
  | some (.str s) => decide (s ≠ "")
  | some (.arr _) => true
  | some (.obj _) => true

def joinCommaStr : List String → String
  | [] => ""
  | [s] => s
  | s :: rest => s ++ "," ++ joinCommaStr rest

mutual

/-- JavaScript `ToString` coercion as applied by a template literal,
restricted to JSON values: objects print as `[object Object]`, arrays join
their coerced elements with commas. -/
def jsToString : Json → String
  | .null => "null"
  | .bool true => "true"
  | .bool false => "false"
  | .num n => toString n
  | .str s => s
  | .obj _ => "[object Object]"
  | .arr xs => joinCommaStr (jsToStringElems xs)

def jsToStringElems : List Json → List String
  | [] => []
  | .null :: js => "" :: jsToStringElems js
  | j :: js => jsToString j :: jsToStringElems js

end

/-- Template-literal coercion of a possibly-`undefined` value. -/
def jsToStringOpt : Option Json → String
  | none => "undefined"
  | some j => jsToString j

/-- JSON insignificant whitespace. -/
def jsonWs (c : Char) : Bool :=
  c == ' ' || c == '\t' || c == '\n' || c == '\r'

def skipWs : List Char → List Char
  | [] => []
  | c :: cs => if jsonWs c then skipWs cs else c :: cs

def hexVal (c : Char) : Option Nat :=
  let n := c.toNat
  if 48 ≤ n ∧ n ≤ 57 then some (n - 48)
  else if 65 ≤ n ∧ n ≤ 70 then some (n - 55)
  else if 97 ≤ n ∧ n ≤ 102 then some (n - 87)
  else none

def digitVal (c : Char) : Option Nat :=
  let n := c.toNat
  if 48 ≤ n ∧ n ≤ 57 then some (n - 48) else none

/-- Body of a JSON string literal, after the opening quote: returns the
decoded characters and the input remaining after the closing quote.  The
fuel argument is instantiated with the input length, which suffices since
every step consumes at least one character.  A lone surrogate `\u` escape
is modelled as the NUL character (`Char.ofNat` clamps invalid scalars). -/
def parseStringBody : Nat → List Char → Option (List Char × List Char)
  | 0, _ => none
  | _, [] => none
  | fuel + 1, c :: cs =>
    if c == '"' then some ([], cs)
    else if c == '\\' then
      match cs with
      | [] => none
      | e :: cs2 =>
        let esc : Option (Char × List Char) :=
          if e == '"' then some ('"', cs2)
          else if e == '\\' then some ('\\', cs2)
          else if e == '/' then some ('/', cs2)
          else if e == 'b' then some ('\x08', cs2)
          else if e == 'f' then some ('\x0c', cs2)
          else if e == 'n' then some ('\n', cs2)
          else if e == 'r' then some ('\r', cs2)
          else if e == 't' then some ('\t', cs2)
          else if e == 'u' then
            match cs2 with
            | h1 :: h2 :: h3 :: h4 :: cs3 =>
              match hexVal h1, hexVal h2, hexVal h3, hexVal h4 with
              | some a, some b, some c4, some d =>
                  some (Char.ofNat (((a * 16 + b) * 16 + c4) * 16 + d), cs3)
              | _, _, _, _ => none
            | _ => none
          else none
        match esc with
        | none => none
        | some (ch, rest) =>
          match parseStringBody fuel rest with
          | none => none
          | some (out, rest2) => some (ch :: out, rest2)
    else if c.toNat < 32 then none
    else
      match parseStringBody fuel cs with
      | none => none
      | some (out, rest) => some (c :: out, rest)

def parseDigits : List Char → Nat → Nat × List Char
  | [], acc => (acc, [])
  | c :: cs, acc =>
    match digitVal c with
    | some d => parseDigits cs (acc * 10 + d)
    | none => (acc, c :: cs)

/-- Unsigned JSON integer numeral.  A leading `0` is taken as the complete
numeral (as in the JSON grammar); a spurious following digit then fails at
the enclosing level exactly as it does for `JSON.parse`. -/
def parseJsonNat : List Char → Option (Nat × List Char)
  | [] => none
  | c :: cs =>
    match digitVal c with
    | none => none
    | some 0 => some (0, cs)
    | some d => some (parseDigits cs d)

mutual

/-- JSON value parser, mirroring `JSON.parse` with one modelling choice:
numbers are integer numerals (optionally signed); fractional and exponent
forms — which never occur in this protocol, whose only numbers are
millisecond timestamps — are treated as parse failures. -/
def parseValue : Nat → List Char → Option (Json × List Char)
  | 0, _ => none
  | fuel + 1, cs0 =>
    match skipWs cs0 with
    | [] => none
    | c :: cs =>
      if c == '"' then
        match parseStringBody (cs.length + 1) cs with
        | some (out, rest) => some (.str ⟨out⟩, rest)
        | none => none
      else if c == 't' then
        match cs with
        | 'r' :: 'u' :: 'e' :: rest => some (.bool true, rest)
        | _ => none
      else if c == 'f' then
        match cs with
        | 'a' :: 'l' :: 's' :: 'e' :: rest => some (.bool false, rest)
        | _ => none
      else if c == 'n' then
        match cs with
        | 'u' :: 'l' :: 'l' :: rest => some (.null, rest)
        | _ => none
      else if c == '-' then
        match parseJsonNat cs with
        | some (n, rest) => some (.num (-(n : Int)), rest)
        | none => none
      else if (digitVal c).isSome then
        match parseJsonNat (c :: cs) with
        | some (n, rest) => some (.num (n : Int), rest)
        | none => none
      else if c == '[' then
        match skipWs cs with
        | ']' :: rest => some (.arr [], rest)
        | cs1 =>
          match parseElemsRest fuel cs1 with
          | some (vs, rest) => some (.arr vs, rest)
          | none => none
      else if c == '\x7b' then
        match skipWs cs with
        | '\x7d' :: rest => some (.obj [], rest)
        | cs1 =>
          match parseMembersRest fuel cs1 with
          | some (ms, rest) => some (.obj ms, rest)
          | none => none
      else none

/-- Comma-separated array elements up to the closing bracket. -/
def parseElemsRest : Nat → List Char → Option (List Json × List Char)
  | 0, _ => none
  | fuel + 1, cs =>
    match parseValue fuel cs with
    | none => none
    | some (v, rest) =>
      match skipWs rest with
      | ',' :: rest2 =>
        match parseElemsRest fuel rest2 with
        | some (vs, rest3) => some (v :: vs, rest3)
        | none => none
      | ']' :: rest2 => some ([v], rest2)
      | _ => none

/-- Comma-separated object members up to the closing brace. -/
def parseMembersRest : Nat → List Char → Option (List (String × Json) × List Char)
  | 0, _ => none
  | fuel + 1, cs =>
    match skipWs cs with
    | '"' :: cs1 =>
      match parseStringBody (cs1.length + 1) cs1 with
      | none => none
      | some (key, rest) =>
        match skipWs rest with
        | ':' :: rest2 =>
          match parseValue fuel rest2 with
          | none => none
          | some (v, rest3) =>
            match skipWs rest3 with
            | ',' :: rest4 =>
              match parseMembersRest fuel rest4 with
              | some (ms, rest5) => some ((⟨key⟩, v) :: ms, rest5)
              | none => none
            | '\x7d' :: rest4 => some ([(⟨key⟩, v)], rest4)
            | _ => none
        | _ => none
    | _ => none

end

/-- `JSON.parse`: parse one value and require only whitespace after it.
`none` models a thrown `SyntaxError`.  The fuel `s.length + 1` is enough
because nesting depth is bounded by the input length. -/
def jsonParse (s : String) : Option Json :=
  match parseValue (s.length + 1) s.data with
  | some (v, rest) => if skipWs rest = [] then some v else none
  | none => none

def hexDigitChar (n : Nat) : Char :=
  if n < 10 then Char.ofNat (48 + n) else Char.ofNat (87 + n)

/-- Escaping of one character inside a printed JSON string literal. -/
def escapeChar (c : Char) : List Char :=
  if c == '"' then ['\\', '"']
  else if c == '\\' then ['\\', '\\']
  else if c.toNat < 32 then
    ['\\', 'u', '0', '0', hexDigitChar (c.toNat / 16), hexDigitChar (c.toNat % 16)]
  else [c]

mutual

/-- JSON serializer, used to build the concrete protocol messages (token
header and claims texts) that the theorems below evaluate the validator on.
It plays the role of the client-side `JSON.stringify`. -/
def jsonPrint : Json → String
  | .null => "null"
  | .bool true => "true"
  | .bool false => "false"
  | .num n => toString n
  | .str s => "\"" ++ ⟨(s.data.map escapeChar).flatten⟩ ++ "\""
  | .arr xs => "[" ++ joinCommaStr (jsonPrintElems xs) ++ "]"
  | .obj ms => "\x7b" ++ joinCommaStr (jsonPrintMembers ms) ++ "\x7d"

def jsonPrintElems : List Json → List String
  | [] => []
  | j :: js => jsonPrint j :: jsonPrintElems js

def jsonPrintMembers : List (String × Json) → List String
  | [] => []
  | (k, v) :: ms =>
    ("\"" ++ ⟨(k.data.map escapeChar).flatten⟩ ++ "\":" ++ jsonPrint v) :: jsonPrintMembers ms

end

/-- Value of one character of the standard base64 alphabet (`A-Z a-z 0-9 + /`). -/
def b64Value (c : Char) : Option Nat :=
  let n := c.toNat
  if 65 ≤ n ∧ n ≤ 90 then some (n - 65)
  else if 97 ≤ n ∧ n ≤ 122 then some (n - 97 + 26)
  else if 48 ≤ n ∧ n ≤ 57 then some (n - 48 + 52)
  else if n = 43 then some 62
  else if n = 47 then some 63
  else none

def b64Sextets : List Char → Option (List Nat)
  | [] => some []
  | c :: cs =>
    match b64Value c, b64Sextets cs with
    | some v, some vs => some (v :: vs)
    | _, _ => none

/-- Reassembling bytes from base64 sextets: full 24-bit groups give three
bytes; a trailing group of two sextets gives one byte and of three sextets
two bytes (a trailing single sextet is an error). -/
def b64Bytes : List Nat → Option (List Nat)
  | [] => some []
  | [_] => none
  | [a, b] => some [a * 4 + b / 16]
  | [a, b, c] => some [a * 4 + b / 16, b % 16 * 16 + c / 4]
  | a :: b :: c :: d :: rest =>
    match b64Bytes rest with
    | some tl => some ((a * 4 + b / 16) :: (b % 16 * 16 + c / 4) :: (c % 4 * 64 + d) :: tl)
    | none => none

/-- ASCII whitespace stripped by the forgiving-base64 decode of `atob`. -/
def b64Ws (c : Char) : Bool :=
  c == '\x09' || c == '\x0a' || c == '\x0c' || c == '\x0d' || c == ' '

def stripTrailingEq (cs : List Char) : List Char :=
  match cs.reverse with
  | '=' :: '=' :: rest => rest.reverse
  | '=' :: rest => rest.reverse
  | _ => cs

/-- The Web platform `atob` (forgiving-base64 decode): strip ASCII
whitespace; when the length is a multiple of 4 remove up to two trailing
padding characters; reject a remaining length of 1 mod 4 and any character
outside the base64 alphabet; assemble the bytes.  The result is the
JavaScript binary string, one character per byte; `none` models the thrown
`InvalidCharacterError`. -/
def atob (s : String) : Option String :=
  let data := s.data.filter (fun c => !b64Ws c)
  let data := if data.length % 4 = 0 then stripTrailingEq data else data
  if data.length % 4 = 1 then none
  else
    match b64Sextets data with
    | none => none
    | some vs =>
      match b64Bytes vs with
      | none => none
      | some bytes => some ⟨bytes.map Char.ofNat⟩

/-- The worker's `base64UrlDecode`: pad to a multiple of 4 with `=`, map the
URL-safe alphabet back to the standard one, then `atob`. -/
def base64UrlDecode (s : String) : Option String :=
  let padded := s.data ++ List.replicate ((4 - s.length % 4) % 4) '='
  let replaced := padded.map fun c => if c == '-' then '+' else if c == '_' then '/' else c
  atob ⟨replaced⟩

def b64UrlChar (n : Nat) : Char :=
  if n < 26 then Char.ofNat (65 + n)
  else if n < 52 then Char.ofNat (97 + n - 26)
  else if n < 62 then Char.ofNat (48 + n - 52)
  else if n = 62 then '-'
  else '_'

/-- Unpadded base64url encoding of a byte list, as produced by the client
when it assembles a token; used here to construct concrete tokens. -/
def b64UrlEncodeBytes : List Nat → List Char
  | [] => []
  | [a] => [b64UrlChar (a / 4), b64UrlChar (a % 4 * 16)]
  | [a, b] => [b64UrlChar (a / 4), b64UrlChar (a % 4 * 16 + b / 16), b64UrlChar (b % 16 * 4)]
  | a :: b :: c :: rest =>
    b64UrlChar (a / 4) :: b64UrlChar (a % 4 * 16 + b / 16) ::
      b64UrlChar (b % 16 * 4 + c / 64) :: b64UrlChar (c % 64) :: b64UrlEncodeBytes rest

/-- Base64url encoding of an ASCII string (code points below 256, as in the
JSON texts of this protocol). -/
def b64UrlEncodeAscii (s : String) : String :=
  ⟨b64UrlEncodeBytes (s.data.map Char.toNat)⟩

/-- An imported RSASSA-PKCS1-v1_5 public verification key, reduced to the
JWK fields that identify it. -/
structure RsaPubKey where
  n : String
  e : String
deriving Repr, DecidableEq

/-- WebCrypto `importKey('jwk', …, RSASSA-PKCS1-v1_5/SHA-256, ['verify'])`,
modelled structurally: a JWK object with `kty: "RSA"` and string fields `n`
and `e` imports to the key they determine; anything else is a thrown
`DataError` (`none`).  The finer WebCrypto consistency checks (`use`,
`key_ops`, `alg`) are not modelled; no claim depends on them. -/
def importRsaPublicKey (jwk : Json) : Option RsaPubKey :=
  match getProp jwk "kty", getProp jwk "n", getProp jwk "e" with
  | .ok (some (.str "RSA")), .ok (some (.str nv)), .ok (some (.str ev)) => some ⟨nv, ev⟩
  | _, _, _ => none

/-- Fixed-width injective byte encoding of one character (three bytes,
big-endian, covering every Unicode scalar value). -/
def charSigBytes (c : Char) : List Nat :=
  [c.toNat / 65536, c.toNat / 256 % 256, c.toNat % 256]

def strSigBytes (s : String) : List Nat :=
  (s.data.map charSigBytes).flatten

/-- Idealized RSASSA-PKCS1-v1_5/SHA-256 signing oracle for the private key
paired with the given public key: deterministic, and injective in the
signed message for a fixed key — the standard idealization of a
deterministic signature over a collision-free hash.  The signature is a
byte string below 256 so that it survives the base64url wire round trip. -/
def rsaSign (key : RsaPubKey) (msg : String) : List Nat :=
  strSigBytes key.n ++ 0 :: strSigBytes key.e ++ 0 :: strSigBytes msg

/-- WebCrypto `crypto.subtle.verify` under the idealization of `rsaSign`:
the signature bytes verify exactly when they are the oracle's signature of
the message under the paired private key. -/
def rsaVerify (key : RsaPubKey) (sig : List Nat) (msg : String) : Bool :=
  decide (sig = rsaSign key msg)

theorem charSigBytes_injective : Function.Injective charSigBytes := by
  intro a b h
  simp only [charSigBytes, List.cons.injEq, and_true] at h
  obtain ⟨h1, h2, h3⟩ := h
  have hval : a.toNat = b.toNat := by omega
  exact Char.ext (UInt32.ext hval)

theorem flatten_charSigBytes_inj :
    ∀ xs ys : List Char, (xs.map charSigBytes).flatten = (ys.map charSigBytes).flatten →
      xs = ys
  | [], [], _ => rfl
  | [], y :: ys, h => by simp [charSigBytes] at h
  | x :: xs, [], h => by simp [charSigBytes] at h
  | x :: xs, y :: ys, h => by
    simp only [List.map_cons, List.flatten_cons, charSigBytes, List.cons_append,
      List.nil_append, List.cons.injEq] at h
    obtain ⟨h1, h2, h3, htail⟩ := h
    have hxy : x = y := charSigBytes_injective (by simp [charSigBytes, h1, h2, h3])
    have hrest : xs = ys := flatten_charSigBytes_inj xs ys htail
    rw [hxy, hrest]

theorem strSigBytes_injective : Function.Injective strSigBytes := by
  intro a b h
  have hdata : a.data = b.data := flatten_charSigBytes_inj a.data b.data h
  cases a; cases b; exact congrArg String.mk hdata

/-- For a fixed key, distinct messages have distinct oracle signatures. -/
theorem rsaSign_injective (key : RsaPubKey) : Function.Injective (rsaSign key) := by
  intro a b h
  simp only [rsaSign, List.append_cancel_left_eq, List.cons.injEq, true_and] at h
  exact strSigBytes_injective h

/-- The worker's module-global `appRegistry`, a `Map<string, JsonWebKey>`,
modelled as an insertion-ordered association list with unique keys. -/
abbrev Registry := List (String × Json)

/-- JavaScript `Map.prototype.set`: overwrite the value at an existing key
in place, otherwise append a new entry. -/
def registrySet (reg : Registry) (k : String) (v : Json) : Registry :=
  if reg.any (fun p => p.1 == k) then
    reg.map (fun p => if p.1 = k then (k, v) else p)
  else reg ++ [(k, v)]

/-- JavaScript `Map.prototype.get`, with `none` for `undefined`. -/
def registryGet (reg : Registry) (k : String) : Option Json :=
  (reg.find? (fun p => p.1 == k)).map (fun p => p.2)

/-- `storeAppPublicKey` (index.ts:432-436): the registry is keyed by the
template-literal string `installationId + ":" + keyId`.  The two identifier
arguments carry the raw JavaScript values that reach that template literal. -/
def storeAppPublicKey (reg : Registry) (installationId keyId : Option Json)
    (publicKey : Json) : Registry :=
  registrySet reg (jsToStringOpt installationId ++ ":" ++ jsToStringOpt keyId) publicKey

/-- `getAppPublicKey` (index.ts:438-443): lookup under the same composite
string key; the source's `publicKey || null` collapses a stored falsy value
to "not registered". -/
def getAppPublicKey (reg : Registry) (installationId keyId : Option Json) : Option Json :=
  match registryGet reg (jsToStringOpt installationId ++ ":" ++ jsToStringOpt keyId) with
  | some v => if jsTruthy (some v) then some v else none
  | none => none

def expectedBundleId : String := "com.swdevpa.foodtracker"

/-- One hour in milliseconds, the literal at index.ts:339. -/
def maxTokenAgeMs : Int := 3600000

/-- The `{valid, reason}` object returned by `validateSecureToken`. -/
structure ValidationOutcome where
  valid : Bool
  reason : Option String
deriving Repr, DecidableEq

def vOk : ValidationOutcome := ⟨true, none⟩

def vFail (r : String) : ValidationOutcome := ⟨false, some r⟩

/-- JavaScript `token.split('.')` on the characters of the token. -/
def splitDotChars : List Char → List (List Char)
  | [] => [[]]
  | c :: cs =>
    if c == '.' then [] :: splitDotChars cs
    else
      match splitDotChars cs with
      | [] => [[c]]
      | g :: gs => (c :: g) :: gs

def jsSplitDot (s : String) : List String :=
  (splitDotChars s.data).map fun g => ⟨g⟩

/-- The expiry test of index.ts:338-339: `Date.now() - claims.timestamp >
3600000`.  A non-numeric timestamp makes the subtraction `NaN`, and `NaN`
comparisons are false; coercion of numeric strings is not modelled (the
protocol's timestamps are JSON numbers). -/
def tokenExpiredCheck (now : Int) (ts : Option Json) : Bool :=
  match ts with
  | some (.num t) => decide (now - t > maxTokenAgeMs)
  | _ => false

/-- Steps of `validateSecureToken` after the two JSON decodes
(index.ts:322-378), on the parsed header and claims.  The second component
records whether `crypto.subtle.verify` was reached.  Property access on a
`null` header or claims, a malformed JWK at `importKey`, and an undecodable
signature segment all throw inside the try block and surface as the catch's
`Validation error`. -/
def validateParsed (headerB64 claimsB64 signatureB64 : String) (header claims : Json)
    (reg : Registry) (now : Int) : ValidationOutcome × Bool :=
  match getProp header "alg" with
  | .error _ => (vFail "Validation error", false)
  | .ok alg =>
    if alg ≠ some (.str "RS256") then (vFail "Unsupported algorithm", false)
    else
      match getProp claims "bundleId", getProp claims "timestamp",
          getProp claims "installationId" with
      | .ok bid, .ok ts, .ok iid =>
        if !(jsTruthy bid && jsTruthy ts && jsTruthy iid) then
          (vFail "Missing required claims", false)
        else if bid ≠ some (.str expectedBundleId) then (vFail "Invalid bundle ID", false)
        else if tokenExpiredCheck now ts then (vFail "Token expired", false)
        else
          match getProp header "kid" with
          | .error _ => (vFail "Validation error", false)
          | .ok kid =>
            match getAppPublicKey reg iid kid with
            | none => (vFail "App not registered", false)
            | some jwk =>
              match importRsaPublicKey jwk with
              | none => (vFail "Validation error", false)
              | some pk =>
                match base64UrlDecode signatureB64 with
                | none => (vFail "Validation error", false)
                | some sigStr =>
                  if rsaVerify pk (sigStr.data.map Char.toNat) (headerB64 ++ "." ++ claimsB64)
                  then (vOk, true)
                  else (vFail "Invalid signature", true)
      | _, _, _ => (vFail "Validation error", false)

/-- `validateSecureToken` (index.ts:309-383) with an execution trace: the
first component is the returned `{valid, reason}` object, the second
records whether signature verification was reached. -/
def validateSecureTokenTrace (token : String) (reg : Registry) (now : Int) :
    ValidationOutcome × Bool :=
  match jsSplitDot token with
  | [headerB64, claimsB64, signatureB64] =>
    match (base64UrlDecode headerB64).bind jsonParse with
    | none => (vFail "Validation error", false)
    | some header =>
      match (base64UrlDecode claimsB64).bind jsonParse with
      | none => (vFail "Validation error", false)
      | some claims => validateParsed headerB64 claimsB64 signatureB64 header claims reg now
  | _ => (vFail "Invalid token format", false)

/-- The `{valid, reason}` verdict of `validateSecureToken`. -/
def validateSecureToken (token : String) (reg : Registry) (now : Int) : ValidationOutcome :=
  (validateSecureTokenTrace token reg now).1

structure WorkerRequest where
  method : String
  path : String
  authorization : Option String
  body : Option Json
deriving Repr, DecidableEq

/-- Bodies of the responses the worker can produce; `upstream` marks a
response proxied from the named external API, which is outside the system. -/
inductive ResponseBody where
  | empty
  | json (j : Json)
  | upstream (api : String)
deriving Repr, DecidableEq

structure WorkerResponse where
  status : Nat
  body : ResponseBody
deriving Repr, DecidableEq

def errorBody (msg : String) : ResponseBody :=
  .json (.obj [("error", .str msg)])

/-- `handleAppRegistration` (index.ts:386-427): only `bundleId`,
`publicKey` and `fingerprint` are required (truthy); a missing
`installationId` defaults to `'default'` via `||`.  A request body that is
not parseable JSON, or a `null` body whose property accesses throw, lands
in the handler's catch and returns 500. -/
def handleAppRegistration (req : WorkerRequest) (reg : Registry) :
    WorkerResponse × Registry :=
  if req.method ≠ "POST" then (⟨405, errorBody "Method not allowed"⟩, reg)
  else
    match req.body with
    | none => (⟨500, errorBody "Registration failed"⟩, reg)
    | some rd =>
      match getProp rd "bundleId", getProp rd "publicKey", getProp rd "fingerprint",
          getProp rd "installationId" with
      | .ok bid, .ok pk, .ok fp, .ok iid =>
        if !(jsTruthy bid && jsTruthy pk && jsTruthy fp) then
          (⟨400, errorBody "Invalid registration data"⟩, reg)
        else
          (⟨200, .json (.obj [("success", .bool true),
              ("message", .str "App registered successfully")])⟩,
            storeAppPublicKey reg (if jsTruthy iid then iid else some (.str "default")) fp
              (pk.getD .null))
      | _, _, _, _ => (⟨500, errorBody "Registration failed"⟩, reg)

/-- `handleGeminiRequest` / `handleUSDARequest` (index.ts:106-194), reduced
to what is observable at this trust boundary: the method check, a 500 from
the outer catch when the request body is not JSON, and otherwise a response
proxied from the external API. -/
def handleProxyRequest (api : String) (req : WorkerRequest) : WorkerResponse :=
  if req.method ≠ "POST" then ⟨405, errorBody "Method not allowed"⟩
  else
    match req.body with
    | none => ⟨500, errorBody "Internal server error"⟩
    | some _ => ⟨200, .upstream api⟩

/-- The worker's `fetch` entry point (index.ts:34-104).  Returns the
response, the registry after the request, and whether `validateSecureToken`
was invoked.  `nowIso` stands for `new Date().toISOString()` in the health
body; the CORS headers carry no decision-relevant state and are not
modelled. -/
def workerFetch (req : WorkerRequest) (reg : Registry) (now : Int) (nowIso : String) :
    WorkerResponse × Registry × Bool :=
  if req.method = "OPTIONS" then (⟨200, .empty⟩, reg, false)
  else
    match req.authorization with
    | none => (⟨401, errorBody "Unauthorized"⟩, reg, false)
    | some authHeader =>
      if authHeader = "" ∨ ("Bearer ".data.isPrefixOf authHeader.data) = false then
        (⟨401, errorBody "Unauthorized"⟩, reg, false)
      else
        let result := validateSecureToken ⟨authHeader.data.drop 7⟩ reg now
        if result.valid = false then
          (⟨401, .json (.obj (("error", .str "Authentication failed") ::
            match result.reason with
            | some r => [("reason", .str r)]
            | none => []))⟩, reg, true)
        else if req.path = "/api/gemini/generate" then
          (handleProxyRequest "gemini" req, reg, true)
        else if req.path = "/api/usda/search" then
          (handleProxyRequest "usda" req, reg, true)
        else if req.path = "/api/register-app" then
          let (resp, reg') := handleAppRegistration req reg
          (resp, reg', true)
        else if req.path = "/api/health" then
          (⟨200, .json (.obj [("status", .str "ok"), ("timestamp", .str nowIso)])⟩, reg, true)
        else (⟨404, errorBody "Not found"⟩, reg, true)

structure ClientResponse where
  ok : Bool
  status : Nat
deriving Repr, DecidableEq

/-- Observable outcome of the client's `makeRequest`: a resolved
`response.json()` of the first or the retried fetch, or one of the three
ways the call can throw. -/
inductive ClientOutcome where
  | success (attempt : Nat)
  | authFailed
  | apiError (status : Nat)
  | tokenError
deriving Repr, DecidableEq

/-- `ApiProxyService.makeRequest` (apiProxy.ts:22-74), as a function of its
environment: whether secure auth is configured, whether each of the at most
two `generateSecureToken` calls succeeds, and the responses the network
gives the original and the retried fetch.  Paired with the list of fetches
actually performed, recording for each whether an `Authorization` bearer
header was attached. -/
def makeRequest (useSecureAuth gen1ok gen2ok : Bool)
    (resp1 resp2 : ClientResponse) : ClientOutcome × List Bool :=
  if useSecureAuth ∧ gen1ok = false then (.authFailed, [])
  else
    if resp1.ok then (.success 1, [useSecureAuth])
    else if resp1.status = 401 ∧ useSecureAuth then
      if gen2ok = false then (.tokenError, [useSecureAuth])
      else if resp2.ok then (.success 2, [useSecureAuth, true])
      else (.apiError resp2.status, [useSecureAuth, true])
    else (.apiError resp1.status, [useSecureAuth])

/-! Concrete protocol data used by the theorems: a well-formed JWK, the
paired signing key of the idealized scheme, and tokens assembled exactly as
the client assembles them (JSON texts, base64url segments, signature over
`headerB64 + "." + claimsB64`). -/

def demoJwk : Json :=
  .obj [("kty", .str "RSA"), ("n", .str "demo-n"), ("e", .str "AQAB")]

def demoJwk2 : Json :=
  .obj [("kty", .str "RSA"), ("n", .str "n2"), ("e", .str "AQAB")]

def demoKey : RsaPubKey := ⟨"demo-n", "AQAB"⟩

def demoKey2 : RsaPubKey := ⟨"n2", "AQAB"⟩

def demoHeaderText (kid : String) : String :=
  jsonPrint (.obj [("alg", .str "RS256"), ("kid", .str kid)])

def demoClaimsText (iid : String) (ts : Int) : String :=
  jsonPrint (.obj [("bundleId", .str expectedBundleId), ("timestamp", .num ts),
    ("installationId", .str iid)])

/-- A token whose signature segment is the idealized signature, by the
holder of the private half of `key`, over the encoded header and claims. -/
def signedToken (key : RsaPubKey) (headerText claimsText : String) : String :=
  b64UrlEncodeAscii headerText ++ "." ++ b64UrlEncodeAscii claimsText ++ "." ++
    ⟨b64UrlEncodeBytes (rsaSign key
      (b64UrlEncodeAscii headerText ++ "." ++ b64UrlEncodeAscii claimsText))⟩

def demoToken (kid iid : String) (ts : Int) : String :=
  signedToken demoKey (demoHeaderText kid) (demoClaimsText iid ts)

def demoReg : Registry :=
  storeAppPublicKey [] (some (.str "inst1")) (some (.str "f1")) demoJwk

def flipBitChars (i k : Nat) : List Char → List Char
  | [] => []
  | c :: cs =>
    if i = 0 then Char.ofNat (c.toNat ^^^ (1 <<< k)) :: cs
    else c :: flipBitChars (i - 1) k cs

/-- Replace the character at index `i` by the same character with bit `k`
of its code point flipped. -/
def flipBitAt (s : String) (i k : Nat) : String :=
  ⟨flipBitChars i k s.data⟩

/-- The eight reason strings `validateSecureToken` can produce: the seven
step-specific reasons plus the catch-all of its try/catch. -/
def validatorReasons : List String :=
  ["Invalid token format", "Unsupported algorithm", "Missing required claims",
   "Invalid bundle ID", "Token expired", "App not registered", "Invalid signature",
   "Validation error"]

def demoHeaderB64 : String := b64UrlEncodeAscii (demoHeaderText "f1")

def demoClaimsB64 (ts : Int) : String := b64UrlEncodeAscii (demoClaimsText "inst1" ts)

def demoSigB64 : String :=
  ⟨b64UrlEncodeBytes (rsaSign demoKey (demoHeaderB64 ++ "." ++ demoClaimsB64 1000))⟩

/-- The same claims object as `demoClaimsText "inst1" 1000` serialized with
one leading space: a distinct claims segment that decodes to an identical
claims value. -/
def demoClaimsWsB64 : String := b64UrlEncodeAscii (" " ++ demoClaimsText "inst1" 1000)

/-- A registry holding the single registration `(installationId = "a:b",
fingerprint = "c")`. -/
def aliasReg : Registry := storeAppPublicKey [] (some (.str "a:b")) (some (.str "c")) demoJwk

def aliasReg2 : Registry := storeAppPublicKey aliasReg (some (.str "a")) (some (.str "b:c")) demoJwk2

/-- A token for installation `"a"` under key id `"b:c"` — a composite pair
that was never registered in `aliasReg`. -/
def aliasToken (ts : Int) : String :=
  signedToken demoKey (demoHeaderText "b:c") (demoClaimsText "a" ts)

def regBodyK1 : Json :=
  .obj [("bundleId", .str expectedBundleId), ("publicKey", demoJwk),
    ("fingerprint", .str "f1"), ("installationId", .str "inst1")]

def regBodyK2 : Json :=
  .obj [("bundleId", .str expectedBundleId), ("publicKey", demoJwk2),
    ("fingerprint", .str "f1"), ("installationId", .str "inst1")]

/-- The registry after registering `(inst1, f1)` with `demoJwk` and then
again with `demoJwk2`, both through the registration handler. -/
def regAfterTwo : Registry :=
  (handleAppRegistration ⟨"POST", "/api/register-app", some "Bearer t", some regBodyK2⟩
    (handleAppRegistration ⟨"POST", "/api/register-app", some "Bearer t", some regBodyK1⟩
      []).2).2

/-- A registration body with the three validated fields but no
`installationId` (and a structurally meaningless public key). -/
def regBodyNoIid : Json :=
  .obj [("bundleId", .str "com.swdevpa.foodtracker"), ("publicKey", .str "not-a-key"),
    ("fingerprint", .str "f1")]

/-! Association-list lemmas about the registry map. -/

theorem find_set_map_self (k : String) (v : Json) :
    ∀ reg : Registry, reg.any (fun p => p.1 == k) = true →
      List.find? (fun p => p.1 == k) (reg.map fun p => if p.1 = k then (k, v) else p) =
        some (k, v)
  | [], h => by simp at h
  | q :: qs, h => by
    by_cases hq : q.1 = k
    · simp only [List.map_cons, if_pos hq]
      exact List.find?_cons_of_pos _ (by simp)
    · have htail : qs.any (fun p => p.1 == k) = true := by
        simp only [List.any_cons, Bool.or_eq_true, beq_iff_eq] at h
        exact h.resolve_left hq
      simp only [List.map_cons, if_neg hq]
      rw [List.find?_cons_of_neg _ (by simp [hq])]
      exact find_set_map_self k v qs htail

theorem find_set_map_other (k k' : String) (v : Json) (hne : k' ≠ k) :
    ∀ reg : Registry,
      List.find? (fun p => p.1 == k) (reg.map fun p => if p.1 = k' then (k', v) else p) =
        List.find? (fun p => p.1 == k) reg
  | [] => by simp
  | q :: qs => by
    simp only [List.map_cons]
    by_cases hq : q.1 = k'
    · rw [if_pos hq, List.find?_cons_of_neg _ (by simp [hne]),
        List.find?_cons_of_neg _ (by simp [hq, hne]),
        find_set_map_other k k' v hne qs]
    · rw [if_neg hq]
      by_cases hqk : q.1 = k
      · rw [List.find?_cons_of_pos _ (by simp [hqk]), List.find?_cons_of_pos _ (by simp [hqk])]
      · rw [List.find?_cons_of_neg _ (by simp [hqk]), List.find?_cons_of_neg _ (by simp [hqk]),
          find_set_map_other k k' v hne qs]

theorem find_append_same (k : String) (v : Json) :
    ∀ reg : Registry, reg.any (fun p => p.1 == k) = false →
      List.find? (fun p => p.1 == k) (reg ++ [(k, v)]) = some (k, v)
  | [], _ => by simp
  | q :: qs, h => by
    simp only [List.any_cons, Bool.or_eq_false_iff] at h
    simp only [List.cons_append]
    rw [List.find?_cons_of_neg _ (by simp [h.1])]
    exact find_append_same k v qs h.2

theorem find_append_other (k k' : String) (v : Json) (hne : k' ≠ k) :
    ∀ reg : Registry,
      List.find? (fun p => p.1 == k) (reg ++ [(k', v)]) = List.find? (fun p => p.1 == k) reg
  | [] => by
    rw [List.nil_append, List.find?_cons_of_neg _ (by simp [hne])]
  | q :: qs => by
    simp only [List.cons_append]
    by_cases hqk : q.1 = k
    · rw [List.find?_cons_of_pos _ (by simp [hqk]), List.find?_cons_of_pos _ (by simp [hqk])]
    · rw [List.find?_cons_of_neg _ (by simp [hqk]), List.find?_cons_of_neg _ (by simp [hqk])]
      exact find_append_other k k' v hne qs

theorem registryGet_set_self (reg : Registry) (k : String) (v : Json) :
    registryGet (registrySet reg k v) k = some v := by
  unfold registrySet
  split
  · next hany =>
    unfold registryGet
    rw [find_set_map_self k v reg hany]
    rfl
  · next hany =>
    unfold registryGet
    rw [find_append_same k v reg (Bool.eq_false_iff.mpr hany)]
    rfl

theorem registryGet_set_other (reg : Registry) (k k' : String) (v : Json) (h : k' ≠ k) :
    registryGet (registrySet reg k' v) k = registryGet reg k := by
  unfold registrySet
  split
  · unfold registryGet
    rw [find_set_map_other k k' v h reg]
  · unfold registryGet
    rw [find_append_other k k' v h reg]

theorem str_append_right_cancel (a b c : String) (h : b ≠ c) : a ++ b ≠ a ++ c := by
  intro he
  apply h
  have hd := congrArg String.data he
  simp only [String.data_append] at hd
  have h2 := List.append_cancel_left hd
  cases b; cases c; exact congrArg String.mk h2

/-- Inversion of a successful run of the validator tail: every check it
performs must have passed. -/
theorem validateParsed_ok_inv (headerB64 claimsB64 signatureB64 : String)
    (header claims : Json) (reg : Registry) (now : Int)
    (h : (validateParsed headerB64 claimsB64 signatureB64 header claims reg now).1 = vOk) :
    ∃ bid ts iid kid jwk pk sigStr,
      getProp header "alg" = .ok (some (.str "RS256")) ∧
      getProp claims "bundleId" = .ok bid ∧
      getProp claims "timestamp" = .ok ts ∧
      getProp claims "installationId" = .ok iid ∧
      (jsTruthy bid && jsTruthy ts && jsTruthy iid) = true ∧
      bid = some (.str expectedBundleId) ∧
      tokenExpiredCheck now ts = false ∧
      getProp header "kid" = .ok kid ∧
      getAppPublicKey reg iid kid = some jwk ∧
      importRsaPublicKey jwk = some pk ∧
      base64UrlDecode signatureB64 = some sigStr ∧
      sigStr.data.map Char.toNat = rsaSign pk (headerB64 ++ "." ++ claimsB64) := by
  unfold validateParsed at h
  cases halg : getProp header "alg" with
  | error e => simp only [halg] at h; simp [vFail, vOk] at h
  | ok alg =>
  simp only [halg] at h
  by_cases halgv : alg = some (.str "RS256")
  case neg => rw [if_pos halgv] at h; simp [vFail, vOk] at h
  rw [if_neg (by simp [halgv])] at h
  subst halgv
  cases hbid : getProp claims "bundleId" with
  | error e => simp only [hbid] at h; simp [vFail, vOk] at h
  | ok bid =>
  cases hts : getProp claims "timestamp" with
  | error e => simp only [hbid, hts] at h; simp [vFail, vOk] at h
  | ok ts =>
  cases hiid : getProp claims "installationId" with
  | error e => simp only [hbid, hts, hiid] at h; simp [vFail, vOk] at h
  | ok iid =>
  simp only [hbid, hts, hiid] at h
  cases htr : (jsTruthy bid && jsTruthy ts && jsTruthy iid) with
  | false => rw [htr] at h; simp [vFail, vOk] at h
  | true =>
  rw [htr] at h
  simp only [Bool.not_true, if_neg (by simp : ¬ (false = true))] at h
  by_cases hbidv : bid = some (.str expectedBundleId)
  case neg => rw [if_pos hbidv] at h; simp [vFail, vOk] at h
  rw [if_neg (by simp [hbidv])] at h
  cases hexp : tokenExpiredCheck now ts with
  | true => rw [hexp] at h; simp [vFail, vOk] at h
  | false =>
  rw [hexp] at h
  simp only [if_neg (by simp : ¬ (false = true))] at h
  cases hkid : getProp header "kid" with
  | error e => simp only [hkid] at h; simp [vFail, vOk] at h
  | ok kid =>
  simp only [hkid] at h
  cases hreg : getAppPublicKey reg iid kid with
  | none => simp only [hreg] at h; simp [vFail, vOk] at h
  | some jwk =>
  simp only [hreg] at h
  cases himp : importRsaPublicKey jwk with
  | none => simp only [himp] at h; simp [vFail, vOk] at h
  | some pk =>
  simp only [himp] at h
  cases hsig : base64UrlDecode signatureB64 with
  | none => simp only [hsig] at h; simp [vFail, vOk] at h
  | some sigStr =>
  simp only [hsig] at h
  cases hver : rsaVerify pk (sigStr.data.map Char.toNat) (headerB64 ++ "." ++ claimsB64) with
  | false => rw [hver] at h; simp [vFail, vOk] at h
  | true =>
  have hsigv : sigStr.data.map Char.toNat = rsaSign pk (headerB64 ++ "." ++ claimsB64) := by
    have := of_decide_eq_true hver
    exact this
  exact ⟨bid, ts, iid, kid, jwk, pk, sigStr, rfl, rfl, rfl, rfl, htr, hbidv, hexp,
    rfl, hreg, himp, rfl, hsigv⟩

/-- Inversion of a successful run of `validateSecureToken`: the token has
exactly three segments and both JSON decodes succeeded. -/
theorem trace_ok_inv (token : String) (reg : Registry) (now : Int)
    (h : validateSecureToken token reg now = vOk) :
    ∃ hB cB sB header claims,
      jsSplitDot token = [hB, cB, sB] ∧
      (base64UrlDecode hB).bind jsonParse = some header ∧
      (base64UrlDecode cB).bind jsonParse = some claims ∧
      (validateParsed hB cB sB header claims reg now).1 = vOk := by
  unfold validateSecureToken validateSecureTokenTrace at h
  split at h
  case h_1 hB cB sB hsplit =>
    cases hh : (base64UrlDecode hB).bind jsonParse with
    | none => simp only [hh] at h; simp [vFail, vOk] at h
    | some header =>
      simp only [hh] at h
      cases hc : (base64UrlDecode cB).bind jsonParse with
      | none => simp only [hc] at h; simp [vFail, vOk] at h
      | some claims =>
        simp only [hc] at h
        exact ⟨hB, cB, sB, header, claims, hsplit, hh, hc, h⟩
  case h_2 => simp [vFail, vOk] at h

theorem getAppPublicKey_some_inv (reg : Registry) (iid kid : Option Json) (jwk : Json)
    (h : getAppPublicKey reg iid kid = some jwk) :
    registryGet reg (jsToStringOpt iid ++ ":" ++ jsToStringOpt kid) = some jwk := by
  unfold getAppPublicKey at h
  cases hr : registryGet reg (jsToStringOpt iid ++ ":" ++ jsToStringOpt kid) with
  | none => simp only [hr] at h; exact absurd h (by simp)
  | some v =>
    simp only [hr] at h
    split at h
    · exact h
    · exact absurd h (by simp)

/-- C1, counterexample: the claim says `GET /api/health` is served without
bearer authentication (200), but the worker's bearer check runs before
routing, so the unauthenticated health request is answered `401
Unauthorized` (the same holds for `POST /api/register-app`). -/
theorem c1_health_requires_auth :
    workerFetch ⟨"GET", "/api/health", none, none⟩ [] 0 "ts" =
      (⟨401, errorBody "Unauthorized"⟩, [], false) ∧ (401 : Nat) ≠ 200 :=
  ⟨rfl, by decide⟩

/-- C1 (amended): only `OPTIONS` preflight bypasses authentication; every
other request — including registration and health-check — whose
`Authorization` header is missing, empty, or lacks the `Bearer ` prefix is
answered `401 {error: "Unauthorized"}` with `validateSecureToken` never
invoked (the trailing `false` of the result). -/
theorem c1_gateway_auth (req : WorkerRequest) (reg : Registry) (now : Int) (iso : String) :
    (req.method = "OPTIONS" → workerFetch req reg now iso = (⟨200, .empty⟩, reg, false)) ∧
    (req.method ≠ "OPTIONS" →
      (req.authorization = none ∨
        ∃ a, req.authorization = some a ∧
          (a = "" ∨ ("Bearer ".data.isPrefixOf a.data) = false)) →
      workerFetch req reg now iso = (⟨401, errorBody "Unauthorized"⟩, reg, false)) := by
  constructor
  · intro h
    simp [workerFetch, h]
  · intro hm hauth
    rcases hauth with h | ⟨a, ha, hbad⟩
    · simp [workerFetch, hm, h]
    · rcases hbad with h1 | h1 <;> simp [workerFetch, hm, ha, h1]

/-- Witness for `c1_gateway_auth` at a concrete preflight and a concrete
malformed-authorization registration request. -/
theorem c1_gateway_auth_witness :
    workerFetch ⟨"OPTIONS", "/api/health", none, none⟩ [] 0 "t" = (⟨200, .empty⟩, [], false) ∧
    workerFetch ⟨"POST", "/api/register-app", some "Token abc", none⟩ [] 0 "t" =
      (⟨401, errorBody "Unauthorized"⟩, [], false) :=
  ⟨(c1_gateway_auth ⟨"OPTIONS", "/api/health", none, none⟩ [] 0 "t").1 rfl,
   (c1_gateway_auth ⟨"POST", "/api/register-app", some "Token abc", none⟩ [] 0 "t").2
     (by decide) (Or.inr ⟨"Token abc", rfl, Or.inr (by decide)⟩)⟩

/-- C3, counterexample: a registered, correctly signed token whose
timestamp lies 10^9 ms in the future — far beyond any 60 s clock-skew
allowance — is admitted: the validator has no check against negative age. -/
theorem c3_future_token_accepted :
    validateSecureToken (demoToken "f1" "inst1" 1000000000) demoReg 0 = vOk ∧
    (1000000000 : Int) - 0 > 60000 :=
  ⟨by decide, by decide⟩

/-- C3 (amended): the validator computes `age = now - claims.timestamp` and
rejects with `Token expired` exactly when `age > MAX_TOKEN_AGE`; there is no
lower bound, so any future-dated token passes the age check, and a fresh
future-dated registered token is admitted end to end. -/
theorem c3_no_lower_age_bound :
    (∀ now t : Int, now ≤ t → tokenExpiredCheck now (some (.num t)) = false) ∧
    (∀ now t : Int, now - t > maxTokenAgeMs → tokenExpiredCheck now (some (.num t)) = true) ∧
    validateSecureToken (demoToken "f1" "inst1" 1000000001) demoReg 1 = vOk := by
  refine ⟨?_, ?_, by decide⟩
  · intro now t h
    simp only [tokenExpiredCheck, maxTokenAgeMs, decide_eq_false_iff_not, not_lt]
    omega
  · intro now t h
    simp only [tokenExpiredCheck, maxTokenAgeMs, decide_eq_true_eq]
    exact h

/-- Witness for `c3_no_lower_age_bound` at concrete instants. -/
theorem c3_no_lower_age_bound_witness :
    tokenExpiredCheck 0 (some (.num 5)) = false ∧
    tokenExpiredCheck 7200001 (some (.num 0)) = true :=
  ⟨c3_no_lower_age_bound.1 0 5 (by norm_num),
   c3_no_lower_age_bound.2.1 7200001 0 (by norm_num [maxTokenAgeMs])⟩

/-- C4: at the expiry boundary, age `MAX_TOKEN_AGE + 1 ms` is rejected and
age `MAX_TOKEN_AGE - 1 ms` is admitted — shown generically for the age
check and end to end for concrete registered, correctly signed tokens at
`now = 1700000000000`. -/
theorem c4_expiry_boundary :
    (∀ now : Int, tokenExpiredCheck now (some (.num (now - maxTokenAgeMs - 1))) = true) ∧
    (∀ now : Int, tokenExpiredCheck now (some (.num (now - maxTokenAgeMs + 1))) = false) ∧
    validateSecureToken (demoToken "f1" "inst1" (1700000000000 - 3600001)) demoReg
      1700000000000 = vFail "Token expired" ∧
    validateSecureToken (demoToken "f1" "inst1" (1700000000000 - 3599999)) demoReg
      1700000000000 = vOk := by
  refine ⟨?_, ?_, by decide, by decide⟩
  · intro now
    simp only [tokenExpiredCheck, decide_eq_true_eq]
    omega
  · intro now
    simp only [tokenExpiredCheck, decide_eq_false_iff_not, not_lt]
    omega

/-- C5, counterexample: a token with three segments whose claims segment is
not decodable JSON is rejected through the catch-all with reason
`Validation error`, not with the malformed-token reason `Invalid token
format` the claim requires. -/
theorem c5_nonjson_reason :
    validateSecureTokenTrace "x.!.y" [] 0 = (vFail "Validation error", false) ∧
    vFail "Validation error" ≠ vFail "Invalid token format" :=
  ⟨by decide, by decide⟩

/-- C5 (amended): a token that does not split into exactly three segments
(emptiness is not checked) is rejected with `Invalid token format`; one
whose header or claims segment fails base64url-decoding or JSON parsing is
rejected with the catch-all `Validation error`; in both cases signature
verification is never attempted. -/
theorem c5_malformed_routing (token : String) (reg : Registry) (now : Int) :
    ((jsSplitDot token).length ≠ 3 →
      validateSecureTokenTrace token reg now = (vFail "Invalid token format", false)) ∧
    (∀ hB cB sB, jsSplitDot token = [hB, cB, sB] →
      ((base64UrlDecode hB).bind jsonParse = none ∨
        (base64UrlDecode cB).bind jsonParse = none) →
      validateSecureTokenTrace token reg now = (vFail "Validation error", false)) := by
  constructor
  · intro h
    unfold validateSecureTokenTrace
    split
    · next heq => rw [heq] at h; simp at h
    · rfl
  · intro hB cB sB hsplit hfail
    unfold validateSecureTokenTrace
    simp only [hsplit]
    rcases hfail with hf | hf
    · simp only [hf]
    · cases hh : (base64UrlDecode hB).bind jsonParse with
      | none => simp only [hh]
      | some header => simp only [hh, hf]

/-- Witness for `c5_malformed_routing`: a one-segment token and a
three-segment token with an undecodable middle segment. -/
theorem c5_malformed_routing_witness :
    validateSecureTokenTrace "ab" [] 0 = (vFail "Invalid token format", false) ∧
    validateSecureTokenTrace "x.!.y" [] 7 = (vFail "Validation error", false) :=
  ⟨(c5_malformed_routing "ab" [] 0).1 (by decide),
   (c5_malformed_routing "x.!.y" [] 7).2 "x" "!" "y" (by decide) (Or.inl (by decide))⟩

/-- C6, counterexample: the catch-all reason `Validation error` is an
eighth failure reason, reachable (e.g. by a non-JSON claims segment) and
distinct from all seven reasons the claim enumerates. -/
theorem c6_eighth_reason :
    validateSecureToken "x.!.y" [] 0 = vFail "Validation error" ∧
    "Validation error" ∉ ["Invalid token format", "Unsupported algorithm",
      "Missing required claims", "Invalid bundle ID", "Token expired",
      "App not registered", "Invalid signature"] :=
  ⟨by decide, by decide⟩

/-- C6 (amended): token validation is total — for every input it returns a
verdict (the embedding is a total function, so no exception can escape)
that is either success or carries one of exactly eight coarse reason
strings: the seven step reasons plus the catch-all `Validation error`. -/
theorem c6_reason_closure (token : String) (reg : Registry) (now : Int) :
    validateSecureToken token reg now = vOk ∨
    ∃ r, r ∈ validatorReasons ∧ validateSecureToken token reg now = vFail r := by
  unfold validateSecureToken validateSecureTokenTrace validateParsed
  repeat' split
  all_goals first
    | exact Or.inl rfl
    | (refine Or.inr ⟨_, ?_, rfl⟩; simp [validatorReasons])

/-- C9, counterexample: a registration body missing `installationId` (and
whose public key is a structurally meaningless string) is not answered 400:
it is accepted with 200 and stored under the default installation id, key
unvalidated. -/
theorem c9_missing_installation_id :
    (handleAppRegistration ⟨"POST", "/api/register-app", some "Bearer t",
        some regBodyNoIid⟩ []).1.status = 200 ∧
    (200 : Nat) ≠ 400 ∧
    (handleAppRegistration ⟨"POST", "/api/register-app", some "Bearer t",
        some regBodyNoIid⟩ []).2 = [("default:f1", .str "not-a-key")] :=
  ⟨by decide, by decide, by decide⟩

/-- C9 (amended): `POST /api/register-app` returns 400 exactly when one of
the three fields `bundleId`, `publicKey`, `fingerprint` is missing or falsy;
`installationId` is optional and defaults to `"default"`; the public key is
stored without structural validation; otherwise it returns `200
{success: true}` and upserts the registry. -/
theorem c9_registration_validation (reg : Registry) (path : String) (auth : Option String)
    (rd : Json) (bid pk fp iid : Option Json)
    (hb : getProp rd "bundleId" = .ok bid) (hp : getProp rd "publicKey" = .ok pk)
    (hf : getProp rd "fingerprint" = .ok fp) (hi : getProp rd "installationId" = .ok iid) :
    ((jsTruthy bid && jsTruthy pk && jsTruthy fp) = false →
      handleAppRegistration ⟨"POST", path, auth, some rd⟩ reg =
        (⟨400, errorBody "Invalid registration data"⟩, reg)) ∧
    ((jsTruthy bid && jsTruthy pk && jsTruthy fp) = true →
      handleAppRegistration ⟨"POST", path, auth, some rd⟩ reg =
        (⟨200, .json (.obj [("success", .bool true),
            ("message", .str "App registered successfully")])⟩,
          storeAppPublicKey reg (if jsTruthy iid then iid else some (.str "default")) fp
            (pk.getD .null))) := by
  constructor <;> intro h <;> simp [handleAppRegistration, hb, hp, hf, hi, h]

/-- Witness for `c9_registration_validation`: a body lacking `publicKey` is
rejected 400; a complete body is accepted and stored. -/
theorem c9_registration_validation_witness :
    handleAppRegistration ⟨"POST", "/api/register-app", none,
        some (.obj [("bundleId", .str "b")])⟩ [] =
      (⟨400, errorBody "Invalid registration data"⟩, []) ∧
    handleAppRegistration ⟨"POST", "/api/register-app", none, some regBodyK1⟩ [] =
      (⟨200, .json (.obj [("success", .bool true),
          ("message", .str "App registered successfully")])⟩,
        storeAppPublicKey [] (some (.str "inst1")) (some (.str "f1")) demoJwk) :=
  ⟨(c9_registration_validation [] "/api/register-app" none (.obj [("bundleId", .str "b")])
      (some (.str "b")) none none none rfl rfl rfl rfl).1 (by decide),
   (c9_registration_validation [] "/api/register-app" none regBodyK1
      (some (.str expectedBundleId)) (some demoJwk) (some (.str "f1"))
      (some (.str "inst1")) rfl rfl rfl rfl).2 (by decide)⟩

/-- C10: on a 401 the secure-auth client regenerates the token and retries
exactly once — two fetches, both bearing an `Authorization` header; a
successful retry's body is returned, a failed retry surfaces as an error;
and no execution of `makeRequest` ever performs more than two fetches or,
under secure auth, an unauthenticated one. -/
theorem c10_retry_once (gen2ok : Bool) (resp1 resp2 : ClientResponse)
    (h1 : resp1.ok = false) (h2 : resp1.status = 401) :
    ((makeRequest true true gen2ok resp1 resp2).2 =
      (if gen2ok then [true, true] else [true])) ∧
    (gen2ok = true → resp2.ok = true →
      (makeRequest true true gen2ok resp1 resp2).1 = .success 2) ∧
    (gen2ok = true → resp2.ok = false →
      (makeRequest true true gen2ok resp1 resp2).1 = .apiError resp2.status) ∧
    (∀ (u g1 g2 : Bool) (r1 r2 : ClientResponse), (makeRequest u g1 g2 r1 r2).2.length ≤ 2) ∧
    (∀ (g1 g2 : Bool) (r1 r2 : ClientResponse),
      ∀ b ∈ (makeRequest true g1 g2 r1 r2).2, b = true) := by
  refine ⟨?_, ?_, ?_, ?_, ?_⟩
  · cases gen2ok <;> cases hr2 : resp2.ok <;> simp [makeRequest, h1, h2, hr2]
  · intro hg hr2
    subst hg
    simp [makeRequest, h1, h2, hr2]
  · intro hg hr2
    subst hg
    simp [makeRequest, h1, h2, hr2]
  · intro u g1 g2 r1 r2
    unfold makeRequest
    repeat' split
    all_goals simp
  · intro g1 g2 r1 r2 b hb
    unfold makeRequest at hb
    revert hb
    repeat' split
    all_goals simp_all

/-- C2, counterexample: with the single registration `(installationId =
"a:b", fingerprint = "c")`, a correctly signed token carrying the
never-registered pair `(installationId = "a", kid = "b:c")` is admitted —
the bare-`":"` concatenation aliases distinct pairs, so the lookup is not by
the composite pair and the correspondence fails (`kid "b:c"` differs from
the registered fingerprint `"c"`, `installationId "a"` from `"a:b"`). -/
theorem c2_colon_aliasing :
    validateSecureToken (aliasToken 1000) aliasReg 1000 = vOk ∧
    ("b:c" : String) ≠ "c" ∧ ("a" : String) ≠ "a:b" :=
  ⟨by decide, by decide, by decide⟩

/-- C2 (amended): a successful validation implies the registry holds a
truthy entry under the concatenated string key `claims.installationId +
":" + header.kid`; because the components are joined with a bare `":"`,
this is weaker than lookup by the pair itself (distinct pairs with equal
concatenations are conflated). -/
theorem c2_success_implies_registered (token : String) (reg : Registry) (now : Int)
    (h : validateSecureToken token reg now = vOk) :
    ∃ hB cB sB header claims kid iid jwk,
      jsSplitDot token = [hB, cB, sB] ∧
      (base64UrlDecode hB).bind jsonParse = some header ∧
      (base64UrlDecode cB).bind jsonParse = some claims ∧
      getProp header "kid" = .ok kid ∧
      getProp claims "installationId" = .ok iid ∧
      getAppPublicKey reg iid kid = some jwk ∧
      registryGet reg (jsToStringOpt iid ++ ":" ++ jsToStringOpt kid) = some jwk := by
  obtain ⟨hB, cB, sB, header, claims, hsplit, hh, hc, hp⟩ := trace_ok_inv token reg now h
  obtain ⟨bid, ts, iid, kid, jwk, pk, sigStr, halg, hbid, hts, hiid, htr, hbidv, hexp,
    hkid, hreg, himp, hsig, hsigv⟩ := validateParsed_ok_inv hB cB sB header claims reg now hp
  exact ⟨hB, cB, sB, header, claims, kid, iid, jwk, hsplit, hh, hc, hkid, hiid, hreg,
    getAppPublicKey_some_inv reg iid kid jwk hreg⟩

/-- Witness for `c2_success_implies_registered` at the concrete demo token
and registry. -/
theorem c2_success_implies_registered_witness :
    ∃ hB cB sB header claims kid iid jwk,
      jsSplitDot (demoToken "f1" "inst1" 1000) = [hB, cB, sB] ∧
      (base64UrlDecode hB).bind jsonParse = some header ∧
      (base64UrlDecode cB).bind jsonParse = some claims ∧
      getProp header "kid" = .ok kid ∧
      getProp claims "installationId" = .ok iid ∧
      getAppPublicKey demoReg iid kid = some jwk ∧
      registryGet demoReg (jsToStringOpt iid ++ ":" ++ jsToStringOpt kid) = some jwk :=
  c2_success_implies_registered (demoToken "f1" "inst1" 1000) demoReg 1000 (by decide)

/-- C7, counterexample: flipping bit 2 of character 18 of the claims
segment of an otherwise-valid token changes the decoded `bundleId` (its
first letter), so the token is rejected with `Invalid bundle ID`, not with
`Invalid signature` as the claim requires for every single-bit flip. -/
theorem c7_bitflip_bundle_id :
    demoToken "f1" "inst1" 1000 =
      demoHeaderB64 ++ "." ++ demoClaimsB64 1000 ++ "." ++ demoSigB64 ∧
    validateSecureToken (demoToken "f1" "inst1" 1000) demoReg 1000 = vOk ∧
    validateSecureToken
      (demoHeaderB64 ++ "." ++ flipBitAt (demoClaimsB64 1000) 18 2 ++ "." ++ demoSigB64)
      demoReg 1000 = vFail "Invalid bundle ID" ∧
    vFail "Invalid bundle ID" ≠ vFail "Invalid signature" :=
  ⟨rfl, by decide, by decide, by decide⟩

/-- C7 (amended): for an otherwise-valid token, any alteration of the
claims segment — in particular any single bit flip — that still base64url-
decodes to JSON and leaves the three checked claim fields (`bundleId`,
`timestamp`, `installationId`) unchanged is rejected with `Invalid
signature`; alterations that break decoding or change a checked field are
rejected earlier with a different reason. -/
theorem c7_tamper_detection (reg : Registry) (now : Int)
    (hB cB cB' sB token token' : String) (header claims claims' : Json)
    (hsplit : jsSplitDot token = [hB, cB, sB])
    (hsplit' : jsSplitDot token' = [hB, cB', sB])
    (hh : (base64UrlDecode hB).bind jsonParse = some header)
    (hc : (base64UrlDecode cB).bind jsonParse = some claims)
    (hc' : (base64UrlDecode cB').bind jsonParse = some claims')
    (hne : cB' ≠ cB)
    (hok : validateSecureToken token reg now = vOk)
    (hbid' : getProp claims' "bundleId" = getProp claims "bundleId")
    (hts' : getProp claims' "timestamp" = getProp claims "timestamp")
    (hiid' : getProp claims' "installationId" = getProp claims "installationId") :
    validateSecureToken token' reg now = vFail "Invalid signature" := by
  obtain ⟨hB0, cB0, sB0, header0, claims0, hsplit0, hh0, hc0, hp0⟩ :=
    trace_ok_inv token reg now hok
  rw [hsplit] at hsplit0
  injection hsplit0 with e1 rest
  injection rest with e2 rest2
  injection rest2 with e3 _
  subst e1; subst e2; subst e3
  rw [hh] at hh0
  injection hh0 with eh
  subst eh
  rw [hc] at hc0
  injection hc0 with ec
  subst ec
  obtain ⟨bid, ts, iid, kid, jwk, pk, sigStr, halg, hbid, hts, hiid, htr, hbidv, hexp,
    hkid, hreg, himp, hsig, hsigv⟩ := validateParsed_ok_inv hB cB sB header claims reg now hp0
  have hmsg : (hB ++ "." ++ cB) ≠ (hB ++ "." ++ cB') :=
    str_append_right_cancel (hB ++ ".") cB cB' (Ne.symm hne)
  have hfinal : rsaSign pk (hB ++ "." ++ cB) ≠ rsaSign pk (hB ++ "." ++ cB') :=
    fun hq => hmsg (rsaSign_injective pk hq)
  simp only [Bool.and_eq_true] at htr
  obtain ⟨⟨ht1, ht2⟩, ht3⟩ := htr
  rw [hbidv] at ht1
  unfold validateSecureToken validateSecureTokenTrace
  simp only [hsplit', hh, hc']
  unfold validateParsed
  simp only [halg, hbid', hts', hiid', hbid, hts, hiid, hbidv, hkid, hreg, himp, hsig]
  simp [ht1, ht2, ht3, hexp, rsaVerify, hsigv, hfinal]

/-- Witness for `c7_tamper_detection`: the demo claims re-serialized with a
leading space — a different claims segment decoding to the identical claims
object — is rejected with `Invalid signature`. -/
theorem c7_tamper_detection_witness :
    validateSecureToken (demoHeaderB64 ++ "." ++ demoClaimsWsB64 ++ "." ++ demoSigB64)
      demoReg 1000 = vFail "Invalid signature" :=
  c7_tamper_detection demoReg 1000 demoHeaderB64 (demoClaimsB64 1000) demoClaimsWsB64
    demoSigB64 (demoToken "f1" "inst1" 1000)
    (demoHeaderB64 ++ "." ++ demoClaimsWsB64 ++ "." ++ demoSigB64)
    (.obj [("alg", .str "RS256"), ("kid", .str "f1")])
    (.obj [("bundleId", .str expectedBundleId), ("timestamp", .num 1000),
      ("installationId", .str "inst1")])
    (.obj [("bundleId", .str expectedBundleId), ("timestamp", .num 1000),
      ("installationId", .str "inst1")])
    (by decide) (by decide) (by decide) (by decide) (by decide) (by decide) (by decide)
    rfl rfl rfl

/-- C8, counterexample: registering under the composite key `("a", "b:c")`
overwrites the earlier entry registered under the *different* composite key
`("a:b", "c")` — string concatenation conflates the two — so concurrent
entries under different composite keys are not unaffected. -/
theorem c8_cross_key_interference :
    getAppPublicKey aliasReg (some (.str "a:b")) (some (.str "c")) = some demoJwk ∧
    getAppPublicKey aliasReg2 (some (.str "a:b")) (some (.str "c")) = some demoJwk2 ∧
    demoJwk2 ≠ demoJwk :=
  ⟨by decide, by decide, by decide⟩

/-- C8 (amended): registration is a last-write-wins upsert on the
concatenated string key: re-registering the same `(installationId,
fingerprint)` overwrites without error (the second call also returns 200),
subsequent validation uses the most recent key (a token signed with the old
key now fails `Invalid signature`), and entries under composite keys with
*distinct concatenations* are unaffected. -/
theorem c8_last_write_wins :
    (∀ (reg : Registry) (iid fp : String) (k1 k2 : Json), jsTruthy (some k2) = true →
      getAppPublicKey
        (storeAppPublicKey (storeAppPublicKey reg (some (.str iid)) (some (.str fp)) k1)
          (some (.str iid)) (some (.str fp)) k2)
        (some (.str iid)) (some (.str fp)) = some k2) ∧
    (∀ (reg : Registry) (iid fp iid' fp' : String) (v : Json),
      iid' ++ ":" ++ fp' ≠ iid ++ ":" ++ fp →
      getAppPublicKey (storeAppPublicKey reg (some (.str iid')) (some (.str fp')) v)
        (some (.str iid)) (some (.str fp)) =
      getAppPublicKey reg (some (.str iid)) (some (.str fp))) ∧
    (handleAppRegistration ⟨"POST", "/api/register-app", some "Bearer t", some regBodyK2⟩
      (handleAppRegistration ⟨"POST", "/api/register-app", some "Bearer t",
        some regBodyK1⟩ []).2).1.status = 200 ∧
    validateSecureToken
      (signedToken demoKey2 (demoHeaderText "f1") (demoClaimsText "inst1" 5))
      regAfterTwo 5 = vOk ∧
    validateSecureToken (demoToken "f1" "inst1" 5) regAfterTwo 5 =
      vFail "Invalid signature" := by
  refine ⟨?_, ?_, by decide, by decide, by decide⟩
  · intro reg iid fp k1 k2 htr
    unfold storeAppPublicKey getAppPublicKey
    simp only [jsToStringOpt, jsToString]
    rw [registryGet_set_self]
    simp [htr]
  · intro reg iid fp iid' fp' v hne
    unfold storeAppPublicKey getAppPublicKey
    simp only [jsToStringOpt, jsToString]
    rw [registryGet_set_other _ _ _ _ hne]

/-- Witness for `c8_last_write_wins` at concrete keys. -/
theorem c8_last_write_wins_witness :
    getAppPublicKey
      (storeAppPublicKey (storeAppPublicKey [] (some (.str "i")) (some (.str "f")) (.str "k1"))
        (some (.str "i")) (some (.str "f")) (.str "k2"))
      (some (.str "i")) (some (.str "f")) = some (.str "k2") ∧
    getAppPublicKey (storeAppPublicKey [] (some (.str "x")) (some (.str "y")) (.str "v"))
      (some (.str "i")) (some (.str "f")) =
      getAppPublicKey [] (some (.str "i")) (some (.str "f")) :=
  ⟨c8_last_write_wins.1 [] "i" "f" (.str "k1") (.str "k2") (by decide),
   c8_last_write_wins.2.1 [] "i" "f" "x" "y" (.str "v") (by decide)⟩

/-- Witness for `c10_retry_once`: a 401 followed by a successful retry. -/
theorem c10_retry_once_witness :
    (makeRequest true true true ⟨false, 401⟩ ⟨true, 200⟩).2 = [true, true] ∧
    (makeRequest true true true ⟨false, 401⟩ ⟨true, 200⟩).1 = .success 2 :=
  ⟨by simpa using (c10_retry_once true ⟨false, 401⟩ ⟨true, 200⟩ rfl rfl).1,
   (c10_retry_once true ⟨false, 401⟩ ⟨true, 200⟩ rfl rfl).2.1 rfl rfl⟩

end FoodTracker
